import Mathlib

/-!
Shallow embedding of src/u8timeseries/timeseries.py.

Modelling conventions:
- Timestamps are integer ticks (Int); pandas Timestamp arithmetic on a
  fixed-delta index is integer arithmetic on ticks, and a Timedelta is an Int.
- A pandas Series is a list of (timestamp, value) pairs (PSeries).
- Values are rationals; in the dataframe factory values are Option Rat,
  with none standing for the NaN produced by label reindexing.
- pandas DatetimeIndex.inferred_freq is modelled for fixed-tick offsets:
  it returns none for fewer than 3 points (pandas infer_freq raises
  ValueError there, which the property swallows to None), and otherwise
  the common positive gap when all consecutive gaps are equal; purely
  calendar-dependent offsets (month ends, business days) lie outside the
  modelled time domain.
- Python exceptions are an explicit error type Err: each assert failure
  maps to a named error; comparing indexes of unequal length with the
  equality operator, or taking the truth value of a boolean array of
  length other than one, maps to Err.valueError; reading the misspelled
  attribute indey in slice maps to Err.attributeError.
-/

namespace U8TS

/-- A pandas Series: timestamps paired positionally with values. -/
abbrev PSeries (α : Type) := List (Int × α)

/-- The index of a series, as the list of its timestamps. -/
def pindex {α : Type} (s : PSeries α) : List Int := s.map Prod.fst

/-- Models series.sort_index(): sort the pairs by timestamp. -/
def sortIdx {α : Type} (s : PSeries α) : PSeries α :=
  s.insertionSort (fun p q => p.fst ≤ q.fst)

/-- Consecutive differences of an index. -/
def gapList : List Int → List Int
  | a :: b :: t => (b - a) :: gapList (b :: t)
  | _ => []

/-- The single positive gap of a uniformly spaced index, if there is one. -/
def uniformPosGap (idx : List Int) : Option Int :=
  match gapList idx with
  | [] => none
  | g :: gs => if 0 < g ∧ gs.all (fun x => x = g) then some g else none

/-- Models pandas DatetimeIndex.inferred_freq on fixed-tick indexes: none for
fewer than 3 points, otherwise the common positive gap when all gaps agree. -/
def inferredFreq (idx : List Int) : Option Int :=
  if idx.length < 3 then none
  else uniformPosGap idx

/-- Python exceptions raised by the source, as an explicit error kind. -/
inductive Err where
  | emptyInput
  | noFrequency
  | confidenceMismatch
  | invalidRange
  | timestampNotFound
  | indexMismatch
  | valueError
  | attributeError
deriving DecidableEq, Repr

/-- Models the equality operator between two pandas indexes: a ValueError when
the lengths differ, otherwise the elementwise boolean array. -/
def eqIndexElementwise (i j : List Int) : Except Err (List Bool) :=
  if i.length = j.length then .ok (List.zipWith (fun a b => decide (a = b)) i j)
  else .error .valueError

/-- Models an assert statement applied to a numpy boolean array: the truth
value of a one element array is that element, any other length raises
ValueError (ambiguous truth value; the empty array is falsy), and when the
assert fails it raises the given error. -/
def assertTruthy (bs : List Bool) (e : Err) : Except Err Unit :=
  match bs with
  | [b] => if b then .ok () else .error e
  | [] => .error e
  | _ :: _ :: _ => .error .valueError

/-- A validated TimeSeries as stored by the constructor: the sorted main
series, the inferred frequency, and the optional confidence bound series. -/
structure TimeSeries (α : Type) where
  series : PSeries α
  freq : Int
  confidence_lo : Option (PSeries α)
  confidence_hi : Option (PSeries α)
deriving DecidableEq, Repr

/-- Models the confidence handling block of the constructor (lines 31 to 38):
sort the supplied bound, then assert its index equals the main index, the
assert taking the truth value of an elementwise comparison. -/
def checkConf {α : Type} (mainIdx : List Int) : Option (PSeries α) →
    Except Err (Option (PSeries α))
  | none => .ok none
  | some cs =>
    let cSorted := sortIdx cs
    match eqIndexElementwise (pindex cSorted) mainIdx with
    | .error e => .error e
    | .ok bs =>
      match assertTruthy bs .confidenceMismatch with
      | .error e => .error e
      | .ok _ => .ok (some cSorted)

/-- Models the TimeSeries constructor (lines 8 to 38): assert nonempty, sort
by time, infer the frequency and assert it exists, then validate each
supplied confidence bound against the main index. -/
def TimeSeries.mk? {α : Type} (series : PSeries α)
    (confidence_lo confidence_hi : Option (PSeries α)) :
    Except Err (TimeSeries α) :=
  if series.length < 1 then .error .emptyInput
  else
    let s := sortIdx series
    match inferredFreq (pindex s) with
    | none => .error .noFrequency
    | some f =>
      match checkConf (pindex s) confidence_lo with
      | .error e => .error e
      | .ok lo =>
        match checkConf (pindex s) confidence_hi with
        | .error e => .error e
        | .ok hi => .ok ⟨s, f, lo, hi⟩

/-- First timestamp of an index, models index[0]. -/
def headIdx : List Int → Int
  | [] => 0
  | a :: _ => a

/-- Last timestamp of an index, models index[-1]. -/
def lastIdx : List Int → Int
  | [] => 0
  | [a] => a
  | _ :: b :: t => lastIdx (b :: t)

/-- Models start_time(). -/
def startTime {α : Type} (t : TimeSeries α) : Int := headIdx (pindex t.series)

/-- Models end_time(). -/
def endTime {α : Type} (t : TimeSeries α) : Int := lastIdx (pindex t.series)

/-- Models values(): the value sequence of the main series. -/
def values {α : Type} (t : TimeSeries α) : List α := t.series.map Prod.snd

/-- Models duration(): index[-1] - index[0]. -/
def duration {α : Type} (t : TimeSeries α) : Int := endTime t - startTime t

/-- Models len(). -/
def length {α : Type} (t : TimeSeries α) : Nat := t.series.length

/-- Models the inner helper of slice (lines 91 to 95): on a present series it
filters by the lower bound and then reads the misspelled attribute indey,
which raises AttributeError; on None it returns None. -/
def sliceNotNone {α : Type} (start_ts end_ts : Int) :
    Option (PSeries α) → Except Err (Option (PSeries α))
  | some s =>
    let _s_a := s.filter (fun p => start_ts ≤ p.fst)
    .error .attributeError
  | none => .ok none

/-- Models slice (lines 80 to 99): three range asserts, then the helper on the
main series and each bound, then a fresh construction. -/
def TimeSeries.slice {α : Type} (t : TimeSeries α) (start_ts end_ts : Int) :
    Except Err (TimeSeries α) :=
  if ¬ start_ts < end_ts then .error .invalidRange
  else if ¬ startTime t ≤ end_ts then .error .invalidRange
  else if ¬ start_ts ≤ endTime t then .error .invalidRange
  else
    match sliceNotNone start_ts end_ts (some t.series) with
    | .error e => .error e
    | .ok s =>
      match sliceNotNone start_ts end_ts t.confidence_lo with
      | .error e => .error e
      | .ok lo =>
        match sliceNotNone start_ts end_ts t.confidence_hi with
        | .error e => .error e
        | .ok hi => TimeSeries.mk? (s.getD []) lo hi

/-- Models split (lines 70 to 78): assert membership, then slice the head part
up to ts and the tail part from one frequency step after ts. -/
def TimeSeries.split {α : Type} (t : TimeSeries α) (ts : Int) :
    Except Err (TimeSeries α × TimeSeries α) :=
  if ts ∈ pindex t.series then
    let start_second := ts + t.freq
    match t.slice (startTime t) ts with
    | .error e => .error e
    | .ok first =>
      match t.slice start_second (endTime t) with
      | .error e => .error e
      | .ok second => .ok (first, second)
  else .error .timestampNotFound

/-- Models slice_duration (lines 101 to 109). -/
def TimeSeries.sliceDuration {α : Type} (t : TimeSeries α)
    (start_ts dur : Int) : Except Err (TimeSeries α) :=
  t.slice start_ts (start_ts + dur)

/-- Models has_same_time_as (lines 145 to 146): the raw equality comparison of
the two indexes, other on the left. -/
def hasSameTimeAs {α : Type} (t other : TimeSeries α) : Except Err (List Bool) :=
  eqIndexElementwise (pindex other.series) (pindex t.series)

/-- Models the inner combine_or_none helper (lines 154 to 159). -/
def combineOrNone {α : Type} (a b : Option (PSeries α))
    (f : PSeries α → PSeries α → PSeries α) : Option (PSeries α) :=
  match a, b with
  | some x, some y => some (f x y)
  | _, _ => none

/-- Models combine_from_pd_ops (lines 148 to 165): assert the alignment
comparison, combine the main series and each pair of bounds that are both
present, then construct a fresh TimeSeries. -/
def combineFromPdOps {α : Type} (t other : TimeSeries α)
    (f : PSeries α → PSeries α → PSeries α) : Except Err (TimeSeries α) :=
  match hasSameTimeAs t other with
  | .error e => .error e
  | .ok bs =>
    match assertTruthy bs .indexMismatch with
    | .error e => .error e
    | .ok _ =>
      TimeSeries.mk? (f t.series other.series)
        (combineOrNone t.confidence_lo other.confidence_lo f)
        (combineOrNone t.confidence_hi other.confidence_hi f)

/-- Models pandas arithmetic between two Series with identical indexes:
positionwise application of the scalar operation. -/
def zipVals (f : Rat → Rat → Rat) (a b : PSeries Rat) : PSeries Rat :=
  List.zipWith (fun p q => (p.fst, f p.snd q.snd)) a b

/-- Models the addition dunder (lines 174 to 175). -/
def tsAdd (a b : TimeSeries Rat) : Except Err (TimeSeries Rat) :=
  combineFromPdOps a b (zipVals (· + ·))

/-- Models the subtraction dunder (lines 177 to 178). -/
def tsSub (a b : TimeSeries Rat) : Except Err (TimeSeries Rat) :=
  combineFromPdOps a b (zipVals (· - ·))

/-- Models the multiplication dunder (lines 180 to 181). -/
def tsMul (a b : TimeSeries Rat) : Except Err (TimeSeries Rat) :=
  combineFromPdOps a b (zipVals (· * ·))

/-- Models the division dunder (lines 183 to 184). -/
def tsDiv (a b : TimeSeries Rat) : Except Err (TimeSeries Rat) :=
  combineFromPdOps a b (zipVals (· / ·))

/-- Models from_times_and_values (lines 131 to 140): build a Series from an
index and a value array (pandas raises ValueError when the lengths differ)
and delegate to the constructor. -/
def mkPdSeries {α : Type} (idx : List Int) (vals : List α) :
    Except Err (PSeries α) :=
  if idx.length = vals.length then .ok (idx.zip vals) else .error .valueError

/-- Value of a dataframe cell: none stands for the floating point NaN. -/
abbrev Val := Option Rat

/-- A dataframe restricted to the columns the factory selects: a row label
index, a raw time column (already in ticks; to_datetime is the identity on
the modelled domain), a value column, and optional lo and hi columns. -/
structure DataFrame where
  rowIndex : List Int
  timeCol : List Int
  valueCol : List Val
  loCol : Option (List Val)
  hiCol : Option (List Val)

/-- Label lookup used by pandas reindexing: NaN when the label is absent,
ValueError when the source index holds the label more than once. -/
def lookupVal (idx : List Int) (col : List Val) (t : Int) : Except Err Val :=
  match (idx.zip col).filter (fun p => p.fst = t) with
  | [] => .ok none
  | [p] => .ok p.snd
  | _ :: _ :: _ => .error .valueError

/-- Models building a pandas Series from an existing Series plus a new index:
the data is reindexed by label against the new index, not zipped positionally. -/
def reindexByLabel (idx : List Int) (col : List Val) (newIdx : List Int) :
    Except Err (PSeries Val) :=
  newIdx.mapM (fun t => (lookupVal idx col t).map (fun v => (t, v)))

/-- Models the argument building part of from_dataframe (lines 123 to 127):
the time column is parsed, the value column is zipped positionally with the
parsed times, but each supplied lo or hi column is label reindexed against the
dataframe row index. -/
def fromDataframeArgs (df : DataFrame) :
    Except Err (PSeries Val × Option (PSeries Val) × Option (PSeries Val)) :=
  let times := df.timeCol
  match mkPdSeries times df.valueCol with
  | .error e => .error e
  | .ok series =>
    match (match df.loCol with
           | some c => (reindexByLabel df.rowIndex c times).map some
           | none => .ok none) with
    | .error e => .error e
    | .ok lo =>
      match (match df.hiCol with
             | some c => (reindexByLabel df.rowIndex c times).map some
             | none => .ok none) with
      | .error e => .error e
      | .ok hi => .ok (series, lo, hi)

/-- Models from_dataframe (lines 111 to 129): build the arguments and delegate
to the constructor. -/
def fromDataframe (df : DataFrame) : Except Err (TimeSeries Val) :=
  match fromDataframeArgs df with
  | .error e => .error e
  | .ok (s, lo, hi) => TimeSeries.mk? s lo hi

/-- Follows the words of the spec for the tabular factory, for the refinement
comparison of C8: the lo and hi columns are zipped positionally with the
parsed timestamps, exactly like the value column. -/
def fromDataframeSpecArgs (df : DataFrame) :
    Except Err (PSeries Val × Option (PSeries Val) × Option (PSeries Val)) :=
  let times := df.timeCol
  match mkPdSeries times df.valueCol with
  | .error e => .error e
  | .ok series =>
    match (match df.loCol with
           | some c => (mkPdSeries times c).map some
           | none => .ok none) with
    | .error e => .error e
    | .ok lo =>
      match (match df.hiCol with
             | some c => (mkPdSeries times c).map some
             | none => .ok none) with
      | .error e => .error e
      | .ok hi => .ok (series, lo, hi)

/-!
Heap level model of buffer ownership, for the defensive copy claim. A numpy
value buffer is a heap cell; an accessor either returns the internal cell
itself (aliasing) or allocates a fresh cell holding equal contents (a copy).
-/

/-- A heap of numeric buffers; a cell number names a numpy array. -/
structure Heap where
  cells : List (List Rat)

/-- Read a cell. -/
def Heap.read (h : Heap) (i : Nat) : List Rat := h.cells.getD i []

/-- Overwrite a cell in place, modelling mutation of a numpy array. -/
def Heap.write (h : Heap) (i : Nat) (v : List Rat) : Heap := ⟨h.cells.set i v⟩

/-- Allocate a fresh cell. -/
def Heap.alloc (h : Heap) (v : List Rat) : Heap × Nat :=
  (⟨h.cells ++ [v]⟩, h.cells.length)

/-- Heap level view of a stored TimeSeries: the timestamps plus the cell that
holds the value buffer of the main series. -/
structure TimeSeriesH where
  idx : List Int
  valuesBuf : Nat

/-- Models values() at line 56, return of the underlying values attribute: the
internal buffer itself is handed out, no copy is made. -/
def valuesAcc (t : TimeSeriesH) : Nat := t.valuesBuf

/-- Models pd_series() at line 41, return of a copy: a fresh cell is allocated
with equal contents and the fresh cell is handed out. -/
def pdSeriesAcc (t : TimeSeriesH) (h : Heap) : Heap × Nat :=
  h.alloc (h.read t.valuesBuf)

/-!
Concrete fixtures: a daily series over five days with values 1 to 5 (ticks 0
to 4 standing for 2020-01-01 to 2020-01-05), and three element variants.
-/

/-- The five day example series of the spec, values 1 to 5. -/
def exSeries : PSeries Rat := [(0, 1), (1, 2), (2, 3), (3, 4), (4, 5)]

/-- The constructed TimeSeries for exSeries. -/
def exTS : TimeSeries Rat := ⟨exSeries, 1, none, none⟩

/-- A three element daily series. -/
def exS3 : PSeries Rat := [(0, 1), (1, 2), (2, 3)]

/-- The constructed TimeSeries for exS3. -/
def exA : TimeSeries Rat := ⟨exS3, 1, none, none⟩

/-- A three element daily series with the same length as exA but an index
shifted by five ticks. -/
def exC : TimeSeries Rat := ⟨[(5, 1), (6, 2), (7, 3)], 1, none, none⟩

/-- A confidence bound series with exactly the index of exS3. -/
def exConfLo : PSeries Rat := [(0, 10), (1, 20), (2, 30)]

/-- A TimeSeries like exA but carrying a lower confidence bound. -/
def exAwithLo : TimeSeries Rat := ⟨exS3, 1, some exConfLo, none⟩

/-- A dataframe with plain integer row labels, three rows, a lo column. -/
def exDF : DataFrame :=
  ⟨[0, 1, 2], [100, 101, 102], [some 1, some 2, some 3],
   some [some 5, some 15, some 25], none⟩

/-- A one cell heap holding the buffer of a three element series. -/
def exHeap : Heap := ⟨[[1, 2, 3]]⟩

/-- The heap level view of the series stored in exHeap. -/
def exTSH : TimeSeriesH := ⟨[0, 1, 2], 0⟩

/-! Helper lemmas. -/

/-- Sorting keeps the length. -/
lemma length_sortIdx {α : Type} (s : PSeries α) : (sortIdx s).length = s.length :=
  (List.perm_insertionSort (fun p q : Int × α => p.fst ≤ q.fst) s).length_eq

/-- The index has the length of the series. -/
lemma length_pindex {α : Type} (s : PSeries α) : (pindex s).length = s.length :=
  List.length_map s Prod.fst

/-- Unpacking a successful uniform gap computation. -/
lemma uniformPosGap_eq_some {idx : List Int} {g : Int}
    (h : uniformPosGap idx = some g) : 0 < g ∧ ∀ x ∈ gapList idx, x = g := by
  unfold uniformPosGap at h
  split at h
  · exact Option.noConfusion h
  · rename_i g0 gs hg
    split at h
    · rename_i hc
      obtain ⟨hpos, hall⟩ := hc
      have hg0 : g0 = g := Option.some.inj h
      subst hg0
      refine ⟨hpos, ?_⟩
      intro x hx
      rw [hg] at hx
      rcases List.mem_cons.mp hx with h1 | h2
      · exact h1
      · exact of_decide_eq_true (List.all_eq_true.mp hall x h2)
    · exact Option.noConfusion h

/-- Unpacking a successful frequency inference. -/
lemma inferredFreq_eq_some {idx : List Int} {g : Int}
    (h : inferredFreq idx = some g) :
    3 ≤ idx.length ∧ uniformPosGap idx = some g := by
  unfold inferredFreq at h
  by_cases hl : idx.length < 3
  · rw [if_pos hl] at h; exact Option.noConfusion h
  · rw [if_neg hl] at h; exact ⟨by omega, h⟩

/-- The first element of a nonempty index is a member. -/
lemma headIdx_mem {l : List Int} (h : l ≠ []) : headIdx l ∈ l := by
  cases l with
  | nil => exact absurd rfl h
  | cons a u => simp [headIdx]

/-- Taking the truth value of a boolean array with at least two elements is
ambiguous and raises ValueError. -/
lemma assertTruthy_of_two_le {bs : List Bool} (h : 2 ≤ bs.length) (e : Err) :
    assertTruthy bs e = .error .valueError := by
  cases bs with
  | nil => simp at h
  | cons b1 tail =>
    cases tail with
    | nil => simp at h
    | cons b2 rest => rfl

/-- On an index whose consecutive gaps all equal g, the last timestamp minus
the first equals the gap times one less than the length. -/
lemma lastIdx_sub_headIdx : ∀ (idx : List Int) (g : Int),
    (∀ x ∈ gapList idx, x = g) → idx ≠ [] →
    lastIdx idx - headIdx idx = ((idx.length : Int) - 1) * g
  | [], _, _, hne => absurd rfl hne
  | [a], g, _, _ => by simp [lastIdx, headIdx]
  | a :: b :: u, g, hg, _ => by
    have h1 : b - a = g := hg (b - a) (by simp [gapList])
    have hg2 : ∀ x ∈ gapList (b :: u), x = g := by
      intro x hx
      exact hg x (by simp [gapList]; exact Or.inr hx)
    have ih := lastIdx_sub_headIdx (b :: u) g hg2 (by simp)
    have hl : lastIdx (a :: b :: u) = lastIdx (b :: u) := rfl
    have hh : headIdx (b :: u) = b := rfl
    have hh2 : headIdx (a :: b :: u) = a := rfl
    rw [hl, hh2]
    rw [hh] at ih
    have hlen : ((a :: b :: u).length : Int) = ((b :: u).length : Int) + 1 := by
      push_cast [List.length_cons]
      ring
    have hstep : lastIdx (b :: u) - a = (((b :: u).length : Int) - 1) * g + g := by
      have : lastIdx (b :: u) - a = (lastIdx (b :: u) - b) + (b - a) := by ring
      rw [this, ih, h1]
    rw [hstep, hlen]
    ring

/-- Inversion of a successful construction: the stored series is the sorted
input and the stored frequency is the inferred one. -/
lemma mk?_ok_inv {α : Type} {s : PSeries α} {clo chi : Option (PSeries α)}
    {t : TimeSeries α} (h : TimeSeries.mk? s clo chi = .ok t) :
    t.series = sortIdx s ∧ inferredFreq (pindex (sortIdx s)) = some t.freq := by
  simp only [TimeSeries.mk?] at h
  split at h
  · exact Except.noConfusion h
  · split at h
    · exact Except.noConfusion h
    · split at h
      · exact Except.noConfusion h
      · split at h
        · exact Except.noConfusion h
        · have ht := Except.ok.inj h
          subst ht
          exact ⟨rfl, by assumption⟩

/-! Claim theorems. -/

/-- C1: the claim says slice(start, end) succeeds and returns exactly the
elements with timestamps in the closed interval; in the code, every slice call
that passes the three range asserts raises AttributeError, because the filter
helper reads the misspelled attribute indey on the filtered series. -/
theorem c1_slice_attribute_error {α : Type} (t : TimeSeries α)
    (start_ts end_ts : Int) (h1 : start_ts < end_ts)
    (h2 : startTime t ≤ end_ts) (h3 : start_ts ≤ endTime t) :
    t.slice start_ts end_ts = .error .attributeError := by
  unfold TimeSeries.slice
  rw [if_neg (not_not_intro h1), if_neg (not_not_intro h2),
    if_neg (not_not_intro h3)]
  rfl

/-- C1 witness: the spec example itself, slicing the daily five day series
from the second to the fourth day, raises AttributeError. -/
theorem c1_slice_attribute_error_witness :
    exTS.slice 1 3 = .error .attributeError :=
  c1_slice_attribute_error exTS 1 3 (by decide) (by decide) (by decide)

/-- C2: the claim says a combination succeeds exactly when the two timestamp
sequences are equal and otherwise fails with IndexMismatch through a full
comparison collapsed to one boolean; in the code, for any two operands of
length at least two, every combination raises ValueError: equal length
indexes produce an elementwise boolean array whose assert truth value is
ambiguous, and unequal lengths make the index comparison itself raise. -/
theorem c2_combination_value_error {α : Type} (a b : TimeSeries α)
    (f : PSeries α → PSeries α → PSeries α)
    (ha : 2 ≤ a.series.length) :
    combineFromPdOps a b f = .error .valueError := by
  unfold combineFromPdOps hasSameTimeAs eqIndexElementwise
  by_cases hlen : (pindex b.series).length = (pindex a.series).length
  · rw [if_pos hlen]
    have hbs : 2 ≤ (List.zipWith (fun x y => decide (x = y))
        (pindex b.series) (pindex a.series)).length := by
      rw [List.length_zipWith, hlen, Nat.min_self, length_pindex]
      exact ha
    dsimp only
    rw [assertTruthy_of_two_le hbs]
  · rw [if_neg hlen]

/-- C2 witness: adding the three element series to itself, identical indexes
included, raises ValueError rather than succeeding. -/
theorem c2_combination_value_error_witness :
    tsAdd exA exA = .error .valueError :=
  c2_combination_value_error exA exA (zipVals (· + ·)) (by decide)

/-- C3 counterexample: the claim says a two element series with equal gaps
always constructs; the code fails on it, because pandas frequency inference
returns None below three points. -/
theorem c3_two_element_counterexample :
    TimeSeries.mk? [((0 : Int), (1 : Rat)), (1, 2)] none none
      = .error .noFrequency := rfl

/-- C3 (amended): construction relies on pandas frequency inference, which
needs at least three points; a two element input always fails with the
frequency assertion, an input of length at least three whose sorted index has
one common positive gap constructs, and an input of length at least two
without such a gap fails with the frequency assertion. -/
theorem c3_construction_gap_check (s : PSeries Rat) :
    (s.length = 2 →
      TimeSeries.mk? s none none = .error .noFrequency) ∧
    (3 ≤ s.length → ∀ g, uniformPosGap (pindex (sortIdx s)) = some g →
      TimeSeries.mk? s none none = .ok ⟨sortIdx s, g, none, none⟩) ∧
    (2 ≤ s.length → uniformPosGap (pindex (sortIdx s)) = none →
      TimeSeries.mk? s none none = .error .noFrequency) := by
  have hlen : (pindex (sortIdx s)).length = s.length := by
    rw [length_pindex, length_sortIdx]
  refine ⟨?_, ?_, ?_⟩
  · intro h2
    simp only [TimeSeries.mk?]
    rw [if_neg (by omega)]
    have hfreq : inferredFreq (pindex (sortIdx s)) = none := by
      unfold inferredFreq
      rw [if_pos (by omega)]
    rw [hfreq]
  · intro h3 g hg
    simp only [TimeSeries.mk?]
    rw [if_neg (by omega)]
    have hfreq : inferredFreq (pindex (sortIdx s)) = some g := by
      unfold inferredFreq
      rw [if_neg (by omega)]
      exact hg
    rw [hfreq]
    rfl
  · intro h2 hnone
    simp only [TimeSeries.mk?]
    rw [if_neg (by omega)]
    have hfreq : inferredFreq (pindex (sortIdx s)) = none := by
      unfold inferredFreq
      by_cases hl : (pindex (sortIdx s)).length < 3
      · rw [if_pos hl]
      · rw [if_neg hl]; exact hnone
    rw [hfreq]

/-- C3 witness: the three parts at concrete inputs: a two element daily
series fails, a three element daily series constructs, and a three element
series with a doubled gap fails. -/
theorem c3_construction_gap_check_witness :
    TimeSeries.mk? [((0 : Int), (1 : Rat)), (1, 2)] none none
        = .error .noFrequency ∧
    TimeSeries.mk? [((0 : Int), (1 : Rat)), (1, 2), (2, 3)] none none
        = .ok ⟨[(0, 1), (1, 2), (2, 3)], 1, none, none⟩ ∧
    TimeSeries.mk? [((0 : Int), (1 : Rat)), (1, 2), (4, 3)] none none
        = .error .noFrequency :=
  ⟨(c3_construction_gap_check [((0 : Int), (1 : Rat)), (1, 2)]).1 rfl,
   (c3_construction_gap_check [((0 : Int), (1 : Rat)), (1, 2), (2, 3)]).2.1
     (by decide) 1 (by decide),
   (c3_construction_gap_check [((0 : Int), (1 : Rat)), (1, 2), (4, 3)]).2.2
     (by decide) (by decide)⟩

/-- C4: the claim says split_at on a member timestamp returns the two slices;
in the code, splitting the five day series at its third day raises
AttributeError, because both halves go through the broken slice. -/
theorem c4_split_attribute_error :
    exTS.split 2 = .error .attributeError := rfl

/-- C5: the claim says construction with a supplied confidence bound fails
exactly when the bound index differs, through a comparison collapsed to one
boolean; in the code, constructing the three element series with a lower
bound whose index is identical to the main index raises ValueError, because
the assert takes the truth value of a three element boolean array. -/
theorem c5_conf_identical_value_error :
    TimeSeries.mk? exS3 (some exConfLo) none = .error .valueError := rfl

/-- C6 counterexample: the claim says split_at at the start time succeeds
with a first half of length one; on the five day series the call fails. -/
theorem c6_split_at_start_counterexample :
    exTS.split 0 = .error .invalidRange := rfl

/-- C6 (amended): for every TimeSeries with a nonempty series, split_at at
the start time fails with the invalid range assertion, because the first
half is slice(start_time(), start_time()) and slice demands an end strictly
after the start. -/
theorem c6_split_at_start_invalid_range {α : Type} (t : TimeSeries α)
    (h : t.series ≠ []) :
    t.split (startTime t) = .error .invalidRange := by
  have hne : pindex t.series ≠ [] := by
    intro hnil
    exact h (List.map_eq_nil_iff.mp hnil)
  have hmem : startTime t ∈ pindex t.series := headIdx_mem hne
  unfold TimeSeries.split
  rw [if_pos hmem]
  have hslice : t.slice (startTime t) (startTime t) = .error .invalidRange := by
    unfold TimeSeries.slice
    rw [if_pos (lt_irrefl (startTime t))]
  rw [hslice]

/-- C6 witness: the amended statement at the five day series. -/
theorem c6_split_at_start_invalid_range_witness :
    exTS.split (startTime exTS) = .error .invalidRange :=
  c6_split_at_start_invalid_range exTS (by decide)

/-- C7: the claim says the combination result carries a bound exactly when
both operands do, and in particular combining a series that carries a lower
bound with one that does not yields a result without the bound; in the code
the combination raises ValueError at the alignment assert before any bound
is combined, so no result is produced at all. -/
theorem c7_combine_lo_only_value_error :
    tsAdd exAwithLo exA = .error .valueError := rfl

/-- C8: the claim says the dataframe factory zips the parsed timestamps
positionally with the value column and any lo or hi column; in the code the
value column is positional but a lo column is label reindexed against the
dataframe row index, so with plain integer row labels every bound value
becomes NaN, unlike the positional pairing the spec describes. -/
theorem c8_lo_column_label_reindexed :
    fromDataframeArgs exDF
      = .ok ([(100, some 1), (101, some 2), (102, some 3)],
             some [(100, none), (101, none), (102, none)], none) ∧
    fromDataframeSpecArgs exDF
      = .ok ([(100, some 1), (101, some 2), (102, some 3)],
             some [(100, some 5), (101, some 15), (102, some 25)], none) :=
  ⟨rfl, rfl⟩

/-- C9: the claim says every accessor returns a defensive copy; in the code
values() hands out the internal buffer, so writing through the returned
handle changes the stored values, while pd_series() allocates a copy and
writing through it leaves the stored values unchanged. -/
theorem c9_values_not_defensive_copy :
    (exHeap.write (valuesAcc exTSH) [99, 2, 3]).read exTSH.valuesBuf
        = [99, 2, 3] ∧
    (exHeap.write (valuesAcc exTSH) [99, 2, 3]).read exTSH.valuesBuf
        ≠ exHeap.read exTSH.valuesBuf ∧
    ((pdSeriesAcc exTSH exHeap).1.write (pdSeriesAcc exTSH exHeap).2
        [99, 2, 3]).read exTSH.valuesBuf
        = exHeap.read exTSH.valuesBuf :=
  ⟨rfl, by decide, rfl⟩

/-- C10: every series the constructor accepts satisfies duration equal to
frequency times one less than the length; since every operation that yields
a new TimeSeries goes through this constructor, the relation holds for every
TimeSeries the code ever produces. -/
theorem c10_duration_eq_length_freq {α : Type} (s : PSeries α)
    (clo chi : Option (PSeries α)) (t : TimeSeries α)
    (h : TimeSeries.mk? s clo chi = .ok t) :
    duration t = ((length t : Int) - 1) * t.freq := by
  obtain ⟨hser, hfreq⟩ := mk?_ok_inv h
  obtain ⟨hlen3, hgap⟩ := inferredFreq_eq_some hfreq
  obtain ⟨hpos, hall⟩ := uniformPosGap_eq_some hgap
  have hne : pindex (sortIdx s) ≠ [] := by
    intro hnil
    rw [hnil] at hlen3
    simp at hlen3
  have key := lastIdx_sub_headIdx (pindex (sortIdx s)) t.freq hall hne
  unfold duration endTime startTime length
  rw [hser, key, length_pindex]

/-- C10 witness: the five day series has duration 4, length 5 and frequency
1. -/
theorem c10_duration_eq_length_freq_witness :
    duration exTS = ((length exTS : Int) - 1) * exTS.freq :=
  c10_duration_eq_length_freq exSeries none none exTS rfl

end U8TS
